import Mathlib

/-!
Shallow embedding of the puppeteer-lambda PDF generation pipeline
(`src/core.ts`, `src/index.ts`) and proofs about it.

Conventions of the embedding:
* JavaScript strings are `String`, optional values are `Option`,
  byte buffers are `List Nat`.
* JavaScript truthiness of an optional string / number / boolean is made
  explicit by the `strTruthy`, `natTruthy` and `boolTruthy` helpers.
* `number` arithmetic in `calculateCost` is idealised as exact rational
  arithmetic (`ℚ`); `toFixed(n)` followed by `Number(...)` is modelled as
  rounding to `n` decimal places, and `Math.round` as `round`.
* The WHATWG `new URL` constructor is modelled by `parseURL`, an executable
  parser covering scheme extraction, the special-scheme authority rules
  (nonempty host, digits-only port) and acceptance of arbitrary
  suffixes for non-special schemes; a parse failure (the thrown
  `TypeError`) is `none`.
-/

namespace PuppeteerLambda

/-- JavaScript truthiness of an optional string (`undefined` and `""` are
falsy). -/
def strTruthy : Option String → Bool
  | none => false
  | some s => s ≠ ""

/-- JavaScript `a || b` on an optional string with a default: returns the
string when it is truthy, otherwise the default. -/
def strOr (o : Option String) (d : String) : String :=
  match o with
  | none => d
  | some s => if s = "" then d else s

/-- JavaScript `a || b` where both sides are optional strings. -/
def strOrOpt (a b : Option String) : Option String :=
  if strTruthy a then a else b

/-- JavaScript truthiness of an optional number (`undefined` and `0` are
falsy). -/
def natTruthy : Option Nat → Bool
  | none => false
  | some n => n ≠ 0

/-- JavaScript `a || b` on an optional number with a default. -/
def natOr (o : Option Nat) (d : Nat) : Nat :=
  match o with
  | none => d
  | some n => if n = 0 then d else n

/-- JavaScript truthiness of an optional boolean (`undefined` and `false`
are falsy). -/
def boolTruthy : Option Bool → Bool
  | none => false
  | some b => b

/-! ## The URL model (WHATWG `new URL`) -/

/-- ASCII alpha, the legal first character of a URL scheme. -/
def isSchemeStartChar (c : Char) : Bool :=
  ('a' ≤ c && c ≤ 'z') || ('A' ≤ c && c ≤ 'Z')

/-- Characters legal inside a URL scheme. -/
def isSchemeChar (c : Char) : Bool :=
  isSchemeStartChar c || ('0' ≤ c && c ≤ '9') || c == '+' || c == '-' || c == '.'

/-- Lowercase an ASCII character (schemes are case-normalised). -/
def asciiLower (c : Char) : Char :=
  if 'A' ≤ c && c ≤ 'Z' then Char.ofNat (c.toNat + 32) else c

/-- Scheme scanner: consume scheme characters until the `:` terminator.
Returns the lowercased scheme and the remainder, or `none` if no well-formed
`scheme:` start exists. -/
def takeSchemeAux : List Char → List Char → Option (List Char × List Char)
  | _, [] => none
  | acc, c :: rest =>
    if c = ':' then some (acc.reverse, rest)
    else if isSchemeChar c then takeSchemeAux (asciiLower c :: acc) rest
    else none

/-- Split `scheme:rest`, requiring the first character to be ASCII alpha. -/
def takeScheme : List Char → Option (List Char × List Char)
  | [] => none
  | c :: rest =>
    if isSchemeStartChar c then takeSchemeAux [asciiLower c] rest else none

/-- Schemes the WHATWG parser treats as special (authority required, except
for `file`). -/
def specialSchemes : List String := ["http", "https", "ws", "wss", "ftp", "file"]

/-- Characters that terminate the authority component. -/
def isAuthorityEnd (c : Char) : Bool :=
  c == '/' || c == '\\' || c == '?' || c == '#'

/-- Forbidden host code points (the subset relevant here). -/
def isForbiddenHostChar (c : Char) : Bool :=
  c == ' ' || c == '#' || c == '/' || c == '<' || c == '>' || c == '?' ||
  c == '@' || c == '[' || c == '\\' || c == ']' || c == '^' || c == '|'

/-- Drop user information: keep everything after the last `@`. -/
def dropUserInfo (auth : List Char) : List Char :=
  if auth.contains '@' then ((auth.reverse.takeWhile (· ≠ '@')).reverse) else auth

/-- Split `host:port` at the first `:` that is not inside an IPv6 bracket
pair; returns the host part and the optional port digits. -/
def splitHostPort (hp : List Char) : List Char × Option (List Char) :=
  match hp with
  | '[' :: _ =>
    -- IPv6 literal: host extends to the closing bracket.
    let host := hp.takeWhile (· ≠ ']')
    let rest := hp.dropWhile (· ≠ ']')
    match rest with
    | ']' :: ':' :: port => (host ++ [']'], some port)
    | ']' :: _ => (host ++ [']'], none)
    | _ => (hp, none)
  | _ =>
    let host := hp.takeWhile (· ≠ ':')
    let rest := hp.dropWhile (· ≠ ':')
    match rest with
    | ':' :: port => (host, some port)
    | _ => (host, none)

/-- Validity of a host for a special scheme: nonempty and free of forbidden
code points (IPv6 brackets excepted by construction of `splitHostPort`). -/
def validSpecialHost (host : List Char) : Bool :=
  match host with
  | '[' :: inner => !(inner.any isForbiddenHostChar)
  | _ => !host.isEmpty && !(host.any isForbiddenHostChar)

/-- The result of a successful `new URL(s)`, restricted to the fields this
code reads. -/
structure URLRec where
  scheme : String
  host : String
  deriving Repr, DecidableEq

/-- The `protocol` accessor of the WHATWG URL object: the scheme followed by
a colon. -/
def URLRec.protocol (u : URLRec) : String := u.scheme ++ ":"

/-- Model of `new URL(s)`: trims C0-control/space padding, strips tab and
newline, parses the scheme, and for special non-file schemes requires a
valid authority; non-special schemes accept any remainder. `none` models
the constructor throwing. -/
def parseURL (s : String) : Option URLRec :=
  let cs := (s.data.filter (fun c => c ≠ '\t' && c ≠ '\n' && c ≠ '\r'))
  let trimmed := ((cs.dropWhile (fun c => c.toNat ≤ 32)).reverse.dropWhile
      (fun c => c.toNat ≤ 32)).reverse
  match takeScheme trimmed with
  | none => none
  | some (schemeChars, rest) =>
    let scheme := String.mk schemeChars
    if scheme ∈ specialSchemes then
      if scheme = "file" then
        some { scheme := scheme, host := "" }
      else
        -- special authority slashes: skip any run of slashes/backslashes
        let afterSlashes := rest.dropWhile (fun c => c == '/' || c == '\\')
        let auth := afterSlashes.takeWhile (fun c => !isAuthorityEnd c)
        let hostPort := dropUserInfo auth
        let (host, port) := splitHostPort hostPort
        if validSpecialHost host && (match port with
            | none => true
            | some p => p.all (fun c => '0' ≤ c && c ≤ '9')) then
          some { scheme := scheme, host := String.mk host }
        else
          none
    else
      some { scheme := scheme, host := "" }

/-- `isValidUrl` from `src/core.ts`: `new URL(urlString)` inside try/catch,
then a strict protocol comparison. -/
def isValidUrl (urlString : String) : Bool :=
  match parseURL urlString with
  | some url => url.protocol = "http:" || url.protocol = "https:"
  | none => false

/-- The property the specification ascribes to the validator: the string
parses as an absolute URL whose scheme is exactly `http` or `https`. -/
def IsAbsoluteHttpUrl (s : String) : Prop :=
  ∃ u, parseURL s = some u ∧ (u.scheme = "http" ∨ u.scheme = "https")

/-! ## Cost model (`calculateCost`) -/

/-- One row of the `LAMBDA_PRICING` table. -/
structure Pricing where
  duration : ℚ
  storage : ℚ
  requests : ℚ
  deriving Repr, DecidableEq

/-- The single populated row of the pricing table. -/
def apSouth1Pricing : Pricing :=
  { duration := 0.0000133334, storage := 0.0000000309, requests := 0.0000002 }

/-- The `LAMBDA_PRICING` record keyed by region name. -/
def LAMBDA_PRICING (region : String) : Option Pricing :=
  if region = "ap-south-1" then some apSouth1Pricing else none

/-- Ephemeral storage included for free. -/
def MIN_EPHEMERAL_STORAGE_MB : ℚ := 512

/-- Fixed S3 PUT cost added to every run. -/
def S3_PUT_COST : ℚ := 0.000005

/-- `Number(x.toFixed(d))` idealised over exact rationals: round to `d`
decimal places, ties upward (toFixed picks the larger candidate on a tie,
as does `Math.round`). -/
def toFixedRound (d : ℕ) (x : ℚ) : ℚ := ((round (x * 10 ^ d) : ℤ) : ℚ) / 10 ^ d

/-- The `breakdown` component of `CostMetrics` (`src/types.ts`). -/
structure CostBreakdown where
  computeCost : ℚ
  storageCost : ℚ
  requestCost : ℚ
  s3PutCost : ℚ
  totalCost : ℚ
  deriving Repr, DecidableEq

/-- `CostMetrics` (`src/types.ts`). -/
structure CostMetrics where
  region : String
  durationMs : ℚ
  durationSeconds : ℚ
  memorySizeMB : ℚ
  diskSizeMB : ℚ
  estimatedCostUSD : ℚ
  breakdown : CostBreakdown
  deriving Repr, DecidableEq

/-- `calculateCost` from `src/core.ts`, with `number` arithmetic idealised
over ℚ. `Math.round(x * 1000) / 1000` and `Number(y.toFixed(7))` keep their
source shapes via `round` and `toFixedRound`. -/
def calculateCost (durationMs : ℚ) (memorySizeMB : ℚ := 1024)
    (diskSizeMB : ℚ := 512) (region : String := "ap-south-1") : CostMetrics :=
  let pricing := (LAMBDA_PRICING region).getD apSouth1Pricing
  let durationSeconds := durationMs / 1000
  let computeCost := pricing.duration * ((memorySizeMB * durationMs) / 1000 / 1024)
  let chargedDiskSize := max 0 (diskSizeMB - MIN_EPHEMERAL_STORAGE_MB)
  let storageCost := chargedDiskSize * pricing.storage * (durationMs / 1000 / 1024)
  let requestCost := pricing.requests
  let totalLambdaCost := computeCost + storageCost + requestCost
  let totalCost := totalLambdaCost + S3_PUT_COST
  { region := region
    durationMs := durationMs
    durationSeconds := ((round (durationSeconds * 1000) : ℤ) : ℚ) / 1000
    memorySizeMB := memorySizeMB
    diskSizeMB := diskSizeMB
    estimatedCostUSD := toFixedRound 7 totalCost
    breakdown :=
      { computeCost := toFixedRound 7 computeCost
        storageCost := toFixedRound 7 storageCost
        requestCost := toFixedRound 7 requestCost
        s3PutCost := S3_PUT_COST
        totalCost := toFixedRound 7 totalCost } }

/-! ## PDF encryption (`protectPdf`) -/

/-- Outcome of the `pdf-lib` load/encrypt/save sequence inside the try
block of `protectPdf`. The library is an external capability, so the
outcome is a parameter: a function of the buffer and the two resolved
credentials, where `none` models a throw anywhere inside the try block. -/
def EncryptAttempt : Type := List Nat → String → String → Option (List Nat)

/-- `protectPdf` from `src/core.ts`. The guard, the credential resolution
(`userPassword || ""`, `ownerPassword || userPassword || ""`) and the
catch-all fallback to the original buffer mirror the source. -/
def protectPdf (attempt : EncryptAttempt) (pdfBuffer : List Nat)
    (userPassword ownerPassword : Option String) : List Nat × Bool :=
  if !strTruthy userPassword && !strTruthy ownerPassword then
    (pdfBuffer, false)
  else
    match attempt pdfBuffer (strOr userPassword "")
        (strOr ownerPassword (strOr userPassword "")) with
    | some encryptedPdf => (encryptedPdf, true)
    | none => (pdfBuffer, false)

/-! ## JSON values

Response bodies and the progress record are produced by `JSON.stringify`;
the embedding models a serialized document by its JSON value, with
`undefined`-valued fields omitted at construction time exactly where
`JSON.stringify` would drop them. -/

/-- A JSON value. -/
inductive JVal where
  | jnull
  | jstr (s : String)
  | jnum (q : ℚ)
  | jbool (b : Bool)
  | jarr (xs : List JVal)
  | jobj (fields : List (String × JVal))

/-- An optional object field: omitted when the value is `undefined`. -/
def optField (name : String) (v : Option JVal) : List (String × JVal) :=
  match v with
  | none => []
  | some j => [(name, j)]

/-- Field lookup in a JSON object. -/
def jobjGet (v : JVal) (k : String) : Option JVal :=
  match v with
  | .jobj fields => (fields.find? (fun p => p.1 == k)).map (·.2)
  | _ => none

/-! ## Log entries (`setupPageErrorCollection`) -/

/-- Source location of a console message (`src/types.ts`). -/
structure LogLocation where
  url : Option String
  lineNumber : Option Nat
  columnNumber : Option Nat

/-- `LogEntry` (`src/types.ts`). -/
structure LogEntry where
  type : String
  text : String
  location : Option LogLocation
  stack : Option String

/-- Serialization of a log location. -/
def logLocationJson (l : LogLocation) : JVal :=
  .jobj (optField "url" (l.url.map .jstr) ++
    optField "lineNumber" (l.lineNumber.map (fun n => .jnum n)) ++
    optField "columnNumber" (l.columnNumber.map (fun n => .jnum n)))

/-- Serialization of a log entry. -/
def logEntryJson (e : LogEntry) : JVal :=
  .jobj ([("type", .jstr e.type), ("text", .jstr e.text)] ++
    optField "location" (e.location.map logLocationJson) ++
    optField "stack" (e.stack.map .jstr))

/-! ## Request model (`src/types.ts`) -/

/-- PDF margins. -/
structure Margin where
  top : Option String
  right : Option String
  bottom : Option String
  left : Option String

/-- `PdfOptions` (`src/types.ts`): every field is optional. -/
structure PdfOptions where
  waitUntil : Option String
  timeout : Option Nat
  waitTime : Option Nat
  failOnErrors : Option Bool
  includeConsoleLogs : Option Bool
  pdfFormat : Option String
  printBackground : Option Bool
  margin : Option Margin
  landscape : Option Bool

/-- The empty options object `{}`. -/
def emptyPdfOptions : PdfOptions :=
  { waitUntil := none, timeout := none, waitTime := none, failOnErrors := none
    includeConsoleLogs := none, pdfFormat := none, printBackground := none
    margin := none, landscape := none }

/-- `S3Config` (`src/types.ts`). -/
structure S3Config where
  bucket : Option String
  key : Option String
  fileName : Option String

/-- The empty storage config `{}`. -/
def emptyS3Config : S3Config := { bucket := none, key := none, fileName := none }

/-- `PdfSecurity` (`src/types.ts`). -/
structure PdfSecurity where
  password : Option String
  ownerPassword : Option String

/-- The empty security config `{}`. -/
def emptyPdfSecurity : PdfSecurity := { password := none, ownerPassword := none }

/-- `RequestData` (`src/types.ts`): the injected `data` payload is opaque
to the pipeline and modelled as a JSON value. -/
structure RequestData where
  url : Option String
  data : Option JVal
  options : Option PdfOptions
  s3 : Option S3Config
  security : Option PdfSecurity

/-- The empty request `{}`. -/
def emptyRequestData : RequestData :=
  { url := none, data := none, options := none, s3 := none, security := none }

/-- Echo of margins for the progress record. -/
def marginJson (m : Margin) : JVal :=
  .jobj (optField "top" (m.top.map .jstr) ++ optField "right" (m.right.map .jstr) ++
    optField "bottom" (m.bottom.map .jstr) ++ optField "left" (m.left.map .jstr))

/-- Echo of the request options for the progress record (undefined fields
omitted, as `JSON.stringify` does). -/
def pdfOptionsJson (o : PdfOptions) : JVal :=
  .jobj (optField "waitUntil" (o.waitUntil.map .jstr) ++
    optField "timeout" (o.timeout.map (fun n => .jnum n)) ++
    optField "waitTime" (o.waitTime.map (fun n => .jnum n)) ++
    optField "failOnErrors" (o.failOnErrors.map .jbool) ++
    optField "includeConsoleLogs" (o.includeConsoleLogs.map .jbool) ++
    optField "pdfFormat" (o.pdfFormat.map .jstr) ++
    optField "printBackground" (o.printBackground.map .jbool) ++
    optField "margin" (o.margin.map marginJson) ++
    optField "landscape" (o.landscape.map .jbool))

/-- Echo of the storage config for the progress record. -/
def s3ConfigJson (c : S3Config) : JVal :=
  .jobj (optField "bucket" (c.bucket.map .jstr) ++
    optField "key" (c.key.map .jstr) ++
    optField "fileName" (c.fileName.map .jstr))

/-! ## Responses -/

/-- `LambdaResponse` (`src/types.ts`), with the stringified body modelled
by its JSON value. -/
structure LambdaResponse where
  statusCode : Nat
  headers : List (String × String)
  body : JVal

/-- `createResponse` from `src/core.ts`. -/
def createResponse (statusCode : Nat) (data : List (String × JVal))
    (extraHeaders : List (String × String) := []) : LambdaResponse :=
  { statusCode := statusCode
    headers := [("Content-Type", "application/json")] ++ extraHeaders
    body := .jobj data }

/-- `PdfResult` (`src/types.ts`): a response optionally carrying the raw
PDF bytes. -/
structure PdfResult where
  response : LambdaResponse
  pdfBuffer : Option (List Nat)

/-! ## External capabilities and effect traces

`generatePdf` interacts with the browser page and the S3 client. The
embedding passes their behaviour in as an oracle and records every
side-effecting call in an event trace. A step that can throw is an
`Except JsError`, and a thrown error propagates out of `generatePdf`
exactly as the source (which has no try/catch) propagates the promise
rejection. -/

/-- A thrown JavaScript error, restricted to the fields the handler
reads. -/
structure JsError where
  message : String
  stack : Option String

/-- The navigation result object returned by `page.goto` (the fields the
code reads: `ok()`, `status()`, `statusText()`). -/
structure NavResponse where
  ok : Bool
  status : Nat
  statusText : String

/-- The payload of an S3 `PutObjectCommand` body. -/
inductive UploadBody where
  | bytes (buf : List Nat)
  | json (v : JVal)

/-- One side-effecting call issued by the pipeline. -/
inductive Ev where
  | newPage
  | inject (data : JVal)
  | goto (url : String) (waitUntil : String) (timeoutMs : Nat)
  | wait (ms : Nat)
  | pdf (format : String) (printBackground : Bool) (margin : Option Margin)
      (landscape : Bool)
  | upload (bucket : String) (key : String) (body : UploadBody)
      (contentType : String)
  | closePage
  | closeBrowser

/-- Recognise an upload call. -/
def isUploadEv : Ev → Bool
  | .upload _ _ _ _ => true
  | _ => false

/-- Recognise a rasterization call. -/
def isPdfEv : Ev → Bool
  | .pdf _ _ _ _ => true
  | _ => false

/-- Recognise an upload call carrying a JSON document (the progress
record). -/
def isJsonUploadEv : Ev → Bool
  | .upload _ _ (.json _) _ => true
  | _ => false

/-- Recognise a `page.close()` call. -/
def isClosePageEv : Ev → Bool
  | .closePage => true
  | _ => false

/-- Recognise a `browser.close()` call. -/
def isCloseBrowserEv : Ev → Bool
  | .closeBrowser => true
  | _ => false

/-- Process-wide configuration (`process.env`). -/
structure EnvConfig where
  pdfBucket : Option String
  skipS3Env : Option String
  memEnv : Option String
  regionEnv : Option String
  apiKey : Option String
  nodeEnv : Option String

/-- Behaviour of the external capabilities during one `generatePdf` run:
clock readings, the page steps, the live error lists as read by the
pipeline, the `pdf-lib` attempt and the two S3 sends. -/
structure GenOracle where
  now0 : Nat
  randSuffix : String
  newPage : Except JsError Unit
  gotoResult : Except JsError (Option NavResponse)
  pageErrors : List LogEntry
  consoleMessages : List LogEntry
  pdfResult : Except JsError (List Nat)
  encryptAttempt : EncryptAttempt
  nowFile : Nat
  uploadPdf : Except JsError Unit
  nowEnd : Nat
  isoTimestamp : String
  uploadProgress : Except JsError Unit

/-- `parseInt(s, 10)` restricted to this code's use on decimal strings:
the value of the leading digit run (a fully non-numeric string gives `NaN`,
which no claim touches; it is modelled as 0). -/
def parseInt10 (s : String) : Nat :=
  (s.data.takeWhile (fun c => '0' ≤ c && c ≤ '9')).foldl
    (fun acc c => 10 * acc + (c.toNat - '0'.toNat)) 0

/-- Artifact file name: `s3.fileName || page-<timestamp>.pdf`
(`src/core.ts` line 253). -/
def requestFileName (o : GenOracle) (s3 : S3Config) : String :=
  strOr s3.fileName ("page-" ++ toString o.nowFile ++ ".pdf")

/-- Artifact object key: the path whose first segment defaults to `pdfs`
(`src/core.ts` line 254). -/
def requestObjectKey (o : GenOracle) (s3 : S3Config) : String :=
  if strTruthy s3.key then s3.key.getD "" ++ "/" ++ requestFileName o s3
  else "pdfs/" ++ requestFileName o s3

/-- Bucket name resolution (`src/core.ts` line 252). -/
def requestBucketName (cfg : EnvConfig) (s3 : S3Config) : String :=
  strOr s3.bucket (strOr cfg.pdfBucket "pdf-storage-1")

/-- Progress record object key (`src/core.ts` line 296). -/
def progressObjectKey (s3 : S3Config) : String :=
  if strTruthy s3.key then s3.key.getD "" ++ "/progress.json"
  else "pdfs/progress.json"

/-- `generatePdf` from `src/core.ts`. The browser and the S3 client are
the oracle; every external call is recorded in the returned trace. The
function has no try/catch, so a throwing step yields `Except.error`
together with the calls made up to that point. -/
def generatePdf (cfg : EnvConfig) (o : GenOracle) (requestData : RequestData) :
    Except JsError PdfResult × List Ev :=
  let requestId := "req-" ++ toString o.now0 ++ "-" ++ o.randSuffix
  let url := requestData.url.getD "https://example.com"
  let data := requestData.data.getD (.jobj [])
  let options := requestData.options.getD emptyPdfOptions
  let s3 := requestData.s3.getD emptyS3Config
  let security := requestData.security.getD emptyPdfSecurity
  if !isValidUrl url then
    (.ok { response := createResponse 400 [("message", .jstr "Invalid URL provided")]
           pdfBuffer := none }, [])
  else
    match o.newPage with
    | .error e => (.error e, [.newPage])
    | .ok _ =>
      let pageErrors := o.pageErrors
      let consoleMessages := o.consoleMessages
      let waitUntil := strOr options.waitUntil "networkidle0"
      let timeoutMs := natOr options.timeout 30000
      let tr1 : List Ev := [.newPage, .inject data, .goto url waitUntil timeoutMs]
      match o.gotoResult with
      | .error e => (.error e, tr1)
      | .ok response =>
        if (match response with
            | none => true
            | some r => !r.ok) then
          (.ok { response := createResponse 502
                  ([("message", .jstr "Failed to load the page")] ++
                    (match response with
                     | none => []
                     | some r => [("status", .jnum r.status),
                                  ("statusText", .jstr r.statusText)]) ++
                    [("pageErrors", .jarr (pageErrors.map logEntryJson))])
                 pdfBuffer := none }, tr1)
        else
          let tr2 := tr1 ++ (if natTruthy options.waitTime then
              [.wait (options.waitTime.getD 0)] else [])
          if decide (0 < pageErrors.length) && boolTruthy options.failOnErrors then
            (.ok { response := createResponse 422
                    [("message", .jstr "Page loaded with errors"),
                     ("pageErrors", .jarr (pageErrors.map logEntryJson)),
                     ("consoleMessages", .jarr (consoleMessages.map logEntryJson))]
                   pdfBuffer := none }, tr2)
          else
            let tr3 := tr2 ++ [.pdf (strOr options.pdfFormat "A4")
                (!(options.printBackground == some false)) options.margin
                (boolTruthy options.landscape)]
            match o.pdfResult with
            | .error e => (.error e, tr3)
            | .ok rawPdf =>
              let secRequested :=
                strTruthy security.password || strTruthy security.ownerPassword
              let protRes :=
                if secRequested then
                  protectPdf o.encryptAttempt rawPdf security.password
                    security.ownerPassword
                else (rawPdf, false)
              let pdfBuffer := protRes.1
              let isPasswordProtected := protRes.2
              let bucketName := requestBucketName cfg s3
              let objectKey := requestObjectKey o s3
              let skipS3 := cfg.skipS3Env == some "true"
              let tr4 := tr3 ++ (if skipS3 then [] else
                  [.upload bucketName objectKey (.bytes pdfBuffer) "application/pdf"])
              match (if skipS3 then .ok () else o.uploadPdf : Except JsError Unit) with
              | .error e => (.error e, tr4)
              | .ok _ =>
                let durationMs := o.nowEnd - o.now0
                let memorySizeMB := parseInt10 (strOr cfg.memEnv "1024")
                let region := strOr cfg.regionEnv "ap-south-1"
                let metrics :=
                  calculateCost (durationMs : ℚ) (memorySizeMB : ℚ) 512 region
                let progressData : JVal := .jobj
                  [("requestId", .jstr requestId),
                   ("timestamp", .jstr o.isoTimestamp),
                   ("request", .jobj
                     [("url", .jstr url), ("data", data),
                      ("options", pdfOptionsJson options),
                      ("s3", s3ConfigJson s3)]),
                   ("response", .jobj
                     [("status", .jstr "success"),
                      ("bucket", .jstr bucketName),
                      ("key", .jstr objectKey),
                      ("s3Url", .jstr ("https://" ++ bucketName ++
                        ".s3.amazonaws.com/" ++ objectKey)),
                      ("hasErrors", .jbool (decide (0 < pageErrors.length))),
                      ("errorCount", .jnum pageErrors.length)]),
                   ("security", .jobj
                     [("requested", .jbool secRequested),
                      ("applied", .jbool isPasswordProtected)]),
                   ("metrics", .jobj
                     [("durationMs", .jnum metrics.durationMs),
                      ("totalCostUSD", .jnum metrics.breakdown.totalCost)])]
                let progressKey := progressObjectKey s3
                let tr5 := tr4 ++ (if skipS3 then [] else
                    [.upload bucketName progressKey (.json progressData)
                      "application/json"])
                match (if skipS3 then .ok () else o.uploadProgress :
                    Except JsError Unit) with
                | .error e => (.error e, tr5)
                | .ok _ =>
                  (.ok { response := createResponse 200
                          ([("message", .jstr "PDF generated successfully"),
                            ("requestId", .jstr requestId),
                            ("bucket", .jstr bucketName),
                            ("key", .jstr objectKey)] ++
                           (if skipS3 then [] else
                            [("s3Url", .jstr ("https://" ++ bucketName ++
                              ".s3.amazonaws.com/" ++ objectKey))]) ++
                           [("security", .jobj
                             ([("requested", .jbool secRequested),
                               ("applied", .jbool isPasswordProtected)] ++
                              (if !isPasswordProtected && secRequested then
                               [("note", .jstr
                                 "Password protection not supported (pdf-lib limitation)")]
                               else []))),
                            ("metrics", .jobj
                             [("durationMs", .jnum metrics.durationMs),
                              ("totalCostUSD", .jnum metrics.breakdown.totalCost)])] ++
                           (if decide (0 < pageErrors.length) then
                            [("pageErrors", .jarr (pageErrors.map logEntryJson))]
                            else []) ++
                           (if boolTruthy options.includeConsoleLogs then
                            [("consoleMessages",
                              .jarr (consoleMessages.map logEntryJson))]
                            else []))
                         pdfBuffer := some pdfBuffer }, tr5)

/-! ## The Lambda handler (`src/index.ts`) -/

/-- `AuthResult` (`src/types.ts`). -/
structure AuthResult where
  valid : Bool
  response : Option LambdaResponse

/-- Lookup in an association list as built by `Object.fromEntries`, where
a later duplicate key overwrites an earlier one. -/
def jsLookup (l : List (String × String)) (k : String) : Option String :=
  (l.reverse.find? (fun p => p.1 == k)).map (·.2)

/-- `k.toLowerCase()` as applied to HTTP header names (ASCII). -/
def lowerAscii (s : String) : String := String.mk (s.data.map asciiLower)

/-- `authenticate` from `src/core.ts`. -/
def authenticate (headers : Option (List (String × String)))
    (validApiKey : Option String) : AuthResult :=
  let normalizedHeaders := (headers.getD []).map (fun p => (lowerAscii p.1, p.2))
  let apiKey := jsLookup normalizedHeaders "x-api-key"
  if !strTruthy validApiKey then
    { valid := false
      response := some (createResponse 500
        [("message", .jstr "Server configuration error: API_KEY not set")]) }
  else if !strTruthy apiKey || !(apiKey == validApiKey) then
    { valid := false
      response := some (createResponse 401
        [("message", .jstr "Unauthorized. Valid API key required.")]) }
  else
    { valid := true, response := none }

/-- `ParseResult` (`src/types.ts`). -/
structure ParseResult where
  success : Bool
  data : Option RequestData
  response : Option LambdaResponse

/-- `parseRequestBody` from `src/core.ts`. Base64 decoding and `JSON.parse`
are external capabilities; their combined outcome on the (decoded) body is
supplied as `parsed`, where `Except.error` carries the thrown error
message. -/
def parseRequestBody (parsed : Except String RequestData)
    (body : Option String) (_isBase64Encoded : Bool := false) : ParseResult :=
  if !strTruthy body then
    { success := true, data := some emptyRequestData, response := none }
  else
    match parsed with
    | .ok d => { success := true, data := some d, response := none }
    | .error msg =>
      { success := false, data := none
        response := some (createResponse 400
          [("message", .jstr "Invalid JSON in request body"),
           ("error", .jstr msg)]) }

/-- `LambdaEvent` (`src/types.ts`), with `requestContext.http.method`
flattened. -/
structure LambdaEvent where
  httpMethod : Option String
  rcHttpMethod : Option String
  headers : Option (List (String × String))
  body : Option String
  isBase64Encoded : Option Bool

/-- Behaviour of the capabilities used by the handler: the body parse
outcome, the browser launch, and the capabilities handed to
`generatePdf`. -/
structure HandlerOracle where
  parsed : Except String RequestData
  launch : Except JsError Unit
  gen : GenOracle

/-- The 500 response built in the handler's catch block. -/
def handlerErrorResponse (cfg : EnvConfig) (e : JsError) : LambdaResponse :=
  createResponse 500
    ([("message", .jstr "Failed to generate or upload PDF"),
      ("error", .jstr e.message)] ++
     (if cfg.nodeEnv == some "development" then optField "stack" (e.stack.map .jstr)
      else []))

/-- `handler` from `src/index.ts`: authentication, method check, body
parse, browser launch, `generatePdf`, the catch block, and the finally
block that closes the browser whenever one was launched. -/
def handler (cfg : EnvConfig) (ho : HandlerOracle) (event : LambdaEvent) :
    LambdaResponse × List Ev :=
  let httpMethod := strOrOpt event.httpMethod event.rcHttpMethod
  let authResult := authenticate event.headers cfg.apiKey
  if !authResult.valid then
    (authResult.response.getD (createResponse 500 []), [])
  else if !(httpMethod == some "POST") then
    (createResponse 405
      [("message", .jstr "Method Not Allowed. Only POST requests are accepted.")]
      [("Allow", "POST")], [])
  else
    let parseResult :=
      parseRequestBody ho.parsed event.body (event.isBase64Encoded.getD false)
    if !parseResult.success then
      (parseResult.response.getD (createResponse 500 []), [])
    else
      match ho.launch with
      | .error e =>
        -- the browser is still null, so the finally block closes nothing
        (handlerErrorResponse cfg e, [])
      | .ok _ =>
        match generatePdf cfg ho.gen (parseResult.data.getD emptyRequestData) with
        | (.ok result, tr) => (result.response, tr ++ [.closeBrowser])
        | (.error e, tr) => (handlerErrorResponse cfg e, tr ++ [.closeBrowser])

end PuppeteerLambda

namespace PuppeteerLambda

/-- Right-cancel a trailing colon on string equality. -/
theorem append_colon_inj {a b : String} (h : a ++ ":" = b ++ ":") : a = b := by
  apply String.ext
  have h2 : a.data ++ (":" : String).data = b.data ++ (":" : String).data := by
    rw [← String.data_append, ← String.data_append, h]
  exact List.append_cancel_right h2

/-- C5: `isValidUrl` returns true exactly on strings that parse as absolute
URLs with scheme `http` or `https`; parse failures and other schemes give
false, witnessed by the three example inputs of the specification. -/
theorem isValidUrl_iff_absolute_http :
    (∀ s, isValidUrl s = true ↔ IsAbsoluteHttpUrl s) ∧
    isValidUrl "https://example.com" = true ∧
    isValidUrl "ftp://x" = false ∧
    isValidUrl "not a url" = false := by
  refine ⟨fun s => ?_, by decide, by decide, by decide⟩
  unfold isValidUrl IsAbsoluteHttpUrl
  cases h : parseURL s with
  | none => simp
  | some u =>
    simp only [Bool.or_eq_true, decide_eq_true_eq, Option.some.injEq]
    constructor
    · rintro (hp | hp)
      · exact ⟨u, rfl, Or.inl (append_colon_inj hp)⟩
      · exact ⟨u, rfl, Or.inr (append_colon_inj hp)⟩
    · rintro ⟨u', hu', hsch | hsch⟩ <;> subst hu'
      · exact Or.inl (by rw [URLRec.protocol, hsch]; decide)
      · exact Or.inr (by rw [URLRec.protocol, hsch]; decide)

/-- Congruence for decimal rounding. -/
theorem toFixedRound_congr (d : ℕ) {a b : ℚ} (h : a = b) :
    toFixedRound d a = toFixedRound d b := by rw [h]

/-- C4: the cost breakdown follows the specified formulas — compute cost
`durationRate * memoryMB * durationMs / 1000 / 1024`, storage cost over the
disk in excess of 512 MB, total cost adding the request rate and the fixed
upload cost — each rounded to 7 decimal places, the duration in seconds
rounded to 3 decimal places, and a zero duration gives a zero compute
cost. -/
theorem calculateCost_formula (durationMs memoryMB diskMB : ℚ) (region : String) :
    (calculateCost durationMs memoryMB diskMB region).breakdown.computeCost =
      toFixedRound 7 (((LAMBDA_PRICING region).getD apSouth1Pricing).duration *
        memoryMB * durationMs / 1000 / 1024) ∧
    (calculateCost durationMs memoryMB diskMB region).breakdown.storageCost =
      toFixedRound 7 (max 0 (diskMB - 512) *
        ((LAMBDA_PRICING region).getD apSouth1Pricing).storage * durationMs / 1000 / 1024) ∧
    (calculateCost durationMs memoryMB diskMB region).breakdown.totalCost =
      toFixedRound 7 (((LAMBDA_PRICING region).getD apSouth1Pricing).duration *
          memoryMB * durationMs / 1000 / 1024 +
        max 0 (diskMB - 512) *
          ((LAMBDA_PRICING region).getD apSouth1Pricing).storage * durationMs / 1000 / 1024 +
        ((LAMBDA_PRICING region).getD apSouth1Pricing).requests + S3_PUT_COST) ∧
    (calculateCost durationMs memoryMB diskMB region).durationSeconds =
      toFixedRound 3 (durationMs / 1000) ∧
    (calculateCost 0 memoryMB diskMB region).breakdown.computeCost = 0 := by
  refine ⟨?_, ?_, ?_, ?_, ?_⟩
  · exact toFixedRound_congr 7 (by ring)
  · exact toFixedRound_congr 7 (by rw [MIN_EPHEMERAL_STORAGE_MB]; ring)
  · exact toFixedRound_congr 7 (by rw [MIN_EPHEMERAL_STORAGE_MB]; ring)
  · show ((round (durationMs / 1000 * 1000) : ℤ) : ℚ) / 1000 =
      toFixedRound 3 (durationMs / 1000)
    unfold toFixedRound
    norm_num
  · show toFixedRound 7 (((LAMBDA_PRICING region).getD apSouth1Pricing).duration *
      ((memoryMB * 0) / 1000 / 1024)) = 0
    norm_num [toFixedRound]

/-- C6: when at least one password is supplied and the internal encryption
attempt fails, `protectPdf` returns the original unmodified bytes with
`protected = false`; being a total function, it propagates no error. -/
theorem protectPdf_failure_returns_original (attempt : EncryptAttempt)
    (buf : List Nat) (up op : Option String)
    (h : strTruthy up = true ∨ strTruthy op = true)
    (hfail : attempt buf (strOr up "") (strOr op (strOr up "")) = none) :
    protectPdf attempt buf up op = (buf, false) := by
  unfold protectPdf
  rcases h with h | h <;> simp [h, hfail]

/-- Witness for C6 at a concrete failing attempt. -/
theorem protectPdf_failure_returns_original_witness :
    (strTruthy (some "secret") = true ∨ strTruthy none = true) ∧
    protectPdf (fun _ _ _ => none) [1, 2, 3] (some "secret") none =
      ([1, 2, 3], false) :=
  ⟨Or.inl (by decide),
    protectPdf_failure_returns_original (fun _ _ _ => none) [1, 2, 3]
      (some "secret") none (Or.inl (by decide)) rfl⟩

/-! ## Concrete sample inputs used by witnesses and counterexamples -/

/-- A process environment with the API key set and uploads active. -/
def sampleCfg : EnvConfig :=
  { pdfBucket := none, skipS3Env := none, memEnv := none, regionEnv := none
    apiKey := some "k", nodeEnv := none }

/-- A successful navigation result. -/
def sampleNav : NavResponse := { ok := true, status := 200, statusText := "OK" }

/-- An oracle on which every pipeline step succeeds (the encryption
attempt fails, as `pdf-lib` in fact provides no `encrypt`). -/
def sampleOracle : GenOracle :=
  { now0 := 100, randSuffix := "abc0000"
    newPage := .ok (), gotoResult := .ok (some sampleNav)
    pageErrors := [], consoleMessages := []
    pdfResult := .ok [37, 80, 68, 70]
    encryptAttempt := fun _ _ _ => none
    nowFile := 200, uploadPdf := .ok (), nowEnd := 300
    isoTimestamp := "2026-01-01T00:00:00.000Z", uploadProgress := .ok () }

/-- A plain request for a valid page. -/
def sampleRequest : RequestData :=
  { url := some "https://example.com", data := none, options := none
    s3 := none, security := none }

/-- A runtime error captured by the error collector. -/
def sampleErrorLog : LogEntry :=
  { type := "pageerror", text := "boom", location := none, stack := none }

/-! ## Pipeline theorems -/

/-- C8: a request whose URL fails validation terminates at the validation
step with the 400 response, an empty effect trace — `newPage` is never
called and no other side effect occurs. -/
theorem generatePdf_invalid_url_short_circuits (cfg : EnvConfig) (o : GenOracle)
    (req : RequestData)
    (h : isValidUrl (req.url.getD "https://example.com") = false) :
    generatePdf cfg o req =
      (.ok { response := createResponse 400 [("message", .jstr "Invalid URL provided")]
             pdfBuffer := none }, []) := by
  unfold generatePdf
  simp [h]

/-- Witness for C8 at `pageUrl = "javascript:alert(1)"`. -/
theorem generatePdf_invalid_url_short_circuits_witness :
    isValidUrl (({ sampleRequest with url := some "javascript:alert(1)" } :
        RequestData).url.getD "https://example.com") = false ∧
    generatePdf sampleCfg sampleOracle
        { sampleRequest with url := some "javascript:alert(1)" } =
      (.ok { response := createResponse 400 [("message", .jstr "Invalid URL provided")]
             pdfBuffer := none }, []) :=
  ⟨by decide,
    generatePdf_invalid_url_short_circuits sampleCfg sampleOracle
      { sampleRequest with url := some "javascript:alert(1)" } (by decide)⟩

/-- C2: after URL validation passes, a navigation that yields no response
or a non-success status terminates with the 502 response carrying the
captured error log; the trace holds no rasterization and no upload call. -/
theorem generatePdf_navigation_failure (cfg : EnvConfig) (o : GenOracle)
    (req : RequestData)
    (hurl : isValidUrl (req.url.getD "https://example.com") = true)
    (hpage : o.newPage = .ok ())
    (hnav : o.gotoResult = .ok none ∨
      ∃ r, o.gotoResult = .ok (some r) ∧ r.ok = false) :
    (generatePdf cfg o req).1 = .ok
      { response := createResponse 502
          ([("message", .jstr "Failed to load the page")] ++
            (match o.gotoResult with
             | .ok (some r) => [("status", .jnum r.status),
                                ("statusText", .jstr r.statusText)]
             | _ => []) ++
            [("pageErrors", .jarr (o.pageErrors.map logEntryJson))])
        pdfBuffer := none } ∧
    (generatePdf cfg o req).2.all (fun e => !isPdfEv e && !isUploadEv e) = true := by
  rcases hnav with hnav | ⟨r, hnav, hok⟩
  · unfold generatePdf
    simp [hurl, hpage, hnav, isPdfEv, isUploadEv]
  · unfold generatePdf
    simp [hurl, hpage, hnav, hok, isPdfEv, isUploadEv]

/-- Oracle on which navigation returns a 500 status. -/
def navFailOracle : GenOracle :=
  { sampleOracle with
    gotoResult := Except.ok (some
      { ok := false, status := 500, statusText := "Internal Server Error" }) }

/-- Witness for C2 at a concrete non-success navigation. -/
theorem generatePdf_navigation_failure_witness :
    isValidUrl (sampleRequest.url.getD "https://example.com") = true ∧
    navFailOracle.newPage = .ok () ∧
    (navFailOracle.gotoResult = .ok none ∨
      ∃ r, navFailOracle.gotoResult = .ok (some r) ∧ r.ok = false) ∧
    ((generatePdf sampleCfg navFailOracle sampleRequest).1 = .ok
      { response := createResponse 502
          ([("message", .jstr "Failed to load the page")] ++
            (match navFailOracle.gotoResult with
             | .ok (some r) => [("status", .jnum r.status),
                                ("statusText", .jstr r.statusText)]
             | _ => []) ++
            [("pageErrors", .jarr (navFailOracle.pageErrors.map logEntryJson))])
        pdfBuffer := none } ∧
    (generatePdf sampleCfg navFailOracle sampleRequest).2.all
      (fun e => !isPdfEv e && !isUploadEv e) = true) :=
  ⟨by decide, rfl, Or.inr ⟨_, rfl, rfl⟩,
    generatePdf_navigation_failure sampleCfg navFailOracle sampleRequest
      (by decide) rfl (Or.inr ⟨_, rfl, rfl⟩)⟩

/-- C9: when `failOnErrors` is set and the error log is non-empty after a
successful navigation, the run terminates with the 422 response carrying
both log sequences; no rasterization and no upload call is issued. -/
theorem generatePdf_fail_on_errors (cfg : EnvConfig) (o : GenOracle)
    (req : RequestData) (r : NavResponse)
    (hurl : isValidUrl (req.url.getD "https://example.com") = true)
    (hpage : o.newPage = .ok ())
    (hnav : o.gotoResult = .ok (some r)) (hok : r.ok = true)
    (herr : 0 < o.pageErrors.length)
    (hfail : boolTruthy (req.options.getD emptyPdfOptions).failOnErrors = true) :
    (generatePdf cfg o req).1 = .ok
      { response := createResponse 422
          [("message", .jstr "Page loaded with errors"),
           ("pageErrors", .jarr (o.pageErrors.map logEntryJson)),
           ("consoleMessages", .jarr (o.consoleMessages.map logEntryJson))]
        pdfBuffer := none } ∧
    (generatePdf cfg o req).2.all (fun e => !isPdfEv e && !isUploadEv e) = true := by
  unfold generatePdf
  simp [hurl, hpage, hnav, hok, herr, hfail, isPdfEv, isUploadEv]

/-- Oracle whose page emits one runtime error. -/
def pageErrorOracle : GenOracle := { sampleOracle with pageErrors := [sampleErrorLog] }

/-- Request switching `failOnErrors` on. -/
def failOnErrorsRequest : RequestData :=
  { sampleRequest with options := some { emptyPdfOptions with failOnErrors := some true } }

/-- Witness for C9 at a concrete erroring page. -/
theorem generatePdf_fail_on_errors_witness :
    isValidUrl (failOnErrorsRequest.url.getD "https://example.com") = true ∧
    pageErrorOracle.newPage = .ok () ∧
    pageErrorOracle.gotoResult = .ok (some sampleNav) ∧ sampleNav.ok = true ∧
    0 < pageErrorOracle.pageErrors.length ∧
    boolTruthy (failOnErrorsRequest.options.getD emptyPdfOptions).failOnErrors = true ∧
    ((generatePdf sampleCfg pageErrorOracle failOnErrorsRequest).1 = .ok
      { response := createResponse 422
          [("message", .jstr "Page loaded with errors"),
           ("pageErrors", .jarr (pageErrorOracle.pageErrors.map logEntryJson)),
           ("consoleMessages",
             .jarr (pageErrorOracle.consoleMessages.map logEntryJson))]
        pdfBuffer := none } ∧
    (generatePdf sampleCfg pageErrorOracle failOnErrorsRequest).2.all
      (fun e => !isPdfEv e && !isUploadEv e) = true) :=
  ⟨by decide, rfl, rfl, rfl, by decide, by decide,
    generatePdf_fail_on_errors sampleCfg pageErrorOracle failOnErrorsRequest
      sampleNav (by decide) rfl rfl rfl (by decide) (by decide)⟩

/-- C10: a request that omits `url` is not rejected — the URL defaults to
`https://example.com`, which passes validation, and the pipeline navigates
to and rasterizes that default page. -/
theorem generatePdf_default_url (cfg : EnvConfig) (o : GenOracle)
    (req : RequestData) (r : NavResponse) (buf : List Nat)
    (hurl : req.url = none)
    (hpage : o.newPage = .ok ())
    (hnav : o.gotoResult = .ok (some r)) (hok : r.ok = true)
    (hnoerr : o.pageErrors = [])
    (hpdf : o.pdfResult = .ok buf) :
    isValidUrl "https://example.com" = true ∧
    Ev.goto "https://example.com"
        (strOr (req.options.getD emptyPdfOptions).waitUntil "networkidle0")
        (natOr (req.options.getD emptyPdfOptions).timeout 30000)
      ∈ (generatePdf cfg o req).2 ∧
    Ev.pdf (strOr (req.options.getD emptyPdfOptions).pdfFormat "A4")
        (!((req.options.getD emptyPdfOptions).printBackground == some false))
        (req.options.getD emptyPdfOptions).margin
        (boolTruthy (req.options.getD emptyPdfOptions).landscape)
      ∈ (generatePdf cfg o req).2 := by
  have hvalid : isValidUrl "https://example.com" = true := by decide
  refine ⟨hvalid, ?_, ?_⟩ <;>
  · unfold generatePdf
    cases hskip : (cfg.skipS3Env == some "true") <;>
      cases hup1 : o.uploadPdf <;>
      cases hup2 : o.uploadProgress <;>
      cases hw : natTruthy (req.options.getD emptyPdfOptions).waitTime <;>
      simp [hurl, hvalid, hpage, hnav, hok, hnoerr, hpdf, hskip, hup1, hup2, hw]

/-- Witness for C10 at the empty request. -/
theorem generatePdf_default_url_witness :
    (emptyRequestData.url = none) ∧
    sampleOracle.newPage = .ok () ∧
    sampleOracle.gotoResult = .ok (some sampleNav) ∧ sampleNav.ok = true ∧
    sampleOracle.pageErrors = [] ∧
    sampleOracle.pdfResult = .ok [37, 80, 68, 70] ∧
    (isValidUrl "https://example.com" = true ∧
     Ev.goto "https://example.com"
        (strOr (emptyRequestData.options.getD emptyPdfOptions).waitUntil "networkidle0")
        (natOr (emptyRequestData.options.getD emptyPdfOptions).timeout 30000)
       ∈ (generatePdf sampleCfg sampleOracle emptyRequestData).2 ∧
     Ev.pdf (strOr (emptyRequestData.options.getD emptyPdfOptions).pdfFormat "A4")
        (!((emptyRequestData.options.getD emptyPdfOptions).printBackground == some false))
        (emptyRequestData.options.getD emptyPdfOptions).margin
        (boolTruthy (emptyRequestData.options.getD emptyPdfOptions).landscape)
       ∈ (generatePdf sampleCfg sampleOracle emptyRequestData).2) :=
  ⟨rfl, rfl, rfl, rfl, rfl, rfl,
    generatePdf_default_url sampleCfg sampleOracle emptyRequestData sampleNav
      [37, 80, 68, 70] rfl rfl rfl rfl rfl rfl⟩

/-- C7: a successful run with uploads active issues exactly two upload
calls — the PDF artifact with content type `application/pdf`, then the
progress record at the `progress.json` sibling key — and the success
response's `key` field is the artifact key `requestObjectKey` (whose path
head defaults to `pdfs`). -/
theorem generatePdf_success_uploads (cfg : EnvConfig) (o : GenOracle)
    (req : RequestData) (r : NavResponse) (buf : List Nat)
    (hurl : isValidUrl (req.url.getD "https://example.com") = true)
    (hpage : o.newPage = .ok ())
    (hnav : o.gotoResult = .ok (some r)) (hok : r.ok = true)
    (hstop : (decide (0 < o.pageErrors.length) &&
      boolTruthy (req.options.getD emptyPdfOptions).failOnErrors) = false)
    (hpdf : o.pdfResult = .ok buf)
    (hskip : (cfg.skipS3Env == some "true") = false)
    (hup1 : o.uploadPdf = .ok ())
    (hup2 : o.uploadProgress = .ok ()) :
    (∃ finalBuf pj,
      (generatePdf cfg o req).2.filter isUploadEv =
        [Ev.upload (requestBucketName cfg (req.s3.getD emptyS3Config))
           (requestObjectKey o (req.s3.getD emptyS3Config)) (.bytes finalBuf)
           "application/pdf",
         Ev.upload (requestBucketName cfg (req.s3.getD emptyS3Config))
           (progressObjectKey (req.s3.getD emptyS3Config)) (.json pj)
           "application/json"]) ∧
    (∃ res, (generatePdf cfg o req).1 = .ok res ∧
      res.response.statusCode = 200 ∧
      jobjGet res.response.body "key" =
        some (.jstr (requestObjectKey o (req.s3.getD emptyS3Config)))) := by
  unfold generatePdf
  cases hw : natTruthy (req.options.getD emptyPdfOptions).waitTime <;>
    simp [hurl, hpage, hnav, hok, hstop, hpdf, hskip, hup1, hup2, hw,
      isUploadEv, jobjGet, createResponse]

/-- Witness for C7 at the all-success sample run. -/
theorem generatePdf_success_uploads_witness :
    isValidUrl (sampleRequest.url.getD "https://example.com") = true ∧
    sampleOracle.newPage = .ok () ∧
    sampleOracle.gotoResult = .ok (some sampleNav) ∧ sampleNav.ok = true ∧
    ((decide (0 < sampleOracle.pageErrors.length) &&
      boolTruthy (sampleRequest.options.getD emptyPdfOptions).failOnErrors) = false) ∧
    sampleOracle.pdfResult = .ok [37, 80, 68, 70] ∧
    (sampleCfg.skipS3Env == some "true") = false ∧
    sampleOracle.uploadPdf = .ok () ∧ sampleOracle.uploadProgress = .ok () ∧
    ((∃ finalBuf pj,
      (generatePdf sampleCfg sampleOracle sampleRequest).2.filter isUploadEv =
        [Ev.upload (requestBucketName sampleCfg (sampleRequest.s3.getD emptyS3Config))
           (requestObjectKey sampleOracle (sampleRequest.s3.getD emptyS3Config))
           (.bytes finalBuf) "application/pdf",
         Ev.upload (requestBucketName sampleCfg (sampleRequest.s3.getD emptyS3Config))
           (progressObjectKey (sampleRequest.s3.getD emptyS3Config)) (.json pj)
           "application/json"]) ∧
     (∃ res, (generatePdf sampleCfg sampleOracle sampleRequest).1 = .ok res ∧
       res.response.statusCode = 200 ∧
       jobjGet res.response.body "key" =
         some (.jstr (requestObjectKey sampleOracle
           (sampleRequest.s3.getD emptyS3Config))))) :=
  ⟨by decide, rfl, rfl, rfl, by decide, rfl, rfl, rfl, rfl,
    generatePdf_success_uploads sampleCfg sampleOracle sampleRequest sampleNav
      [37, 80, 68, 70] (by decide) rfl rfl rfl (by decide) rfl rfl rfl rfl⟩

/-- C3: the stored progress record redacts passwords — it echoes the
request without the security field and keeps only the requested/applied
booleans — so two successful runs whose requests differ only in password
values upload identical progress records. -/
theorem generatePdf_password_noninterference (cfg : EnvConfig) (o : GenOracle)
    (u : Option String) (d : Option JVal) (opts : Option PdfOptions)
    (s3c : Option S3Config) (sec1 sec2 : Option PdfSecurity) (r : NavResponse)
    (buf : List Nat)
    (hurl : isValidUrl (u.getD "https://example.com") = true)
    (hpage : o.newPage = .ok ())
    (hnav : o.gotoResult = .ok (some r)) (hok : r.ok = true)
    (hstop : (decide (0 < o.pageErrors.length) &&
      boolTruthy (opts.getD emptyPdfOptions).failOnErrors) = false)
    (hpdf : o.pdfResult = .ok buf)
    (hskip : (cfg.skipS3Env == some "true") = false)
    (hup1 : o.uploadPdf = .ok ())
    (hup2 : o.uploadProgress = .ok ())
    (hreq : (strTruthy (sec1.getD emptyPdfSecurity).password ||
             strTruthy (sec1.getD emptyPdfSecurity).ownerPassword) =
            (strTruthy (sec2.getD emptyPdfSecurity).password ||
             strTruthy (sec2.getD emptyPdfSecurity).ownerPassword))
    (happ : (protectPdf o.encryptAttempt buf (sec1.getD emptyPdfSecurity).password
        (sec1.getD emptyPdfSecurity).ownerPassword).2 =
      (protectPdf o.encryptAttempt buf (sec2.getD emptyPdfSecurity).password
        (sec2.getD emptyPdfSecurity).ownerPassword).2) :
    (generatePdf cfg o
        { url := u, data := d, options := opts, s3 := s3c, security := sec1 }).2.filter
        isJsonUploadEv =
    (generatePdf cfg o
        { url := u, data := d, options := opts, s3 := s3c, security := sec2 }).2.filter
        isJsonUploadEv := by
  have hsec2 : (strTruthy (sec2.getD emptyPdfSecurity).password ||
      strTruthy (sec2.getD emptyPdfSecurity).ownerPassword) =
      (strTruthy (sec1.getD emptyPdfSecurity).password ||
       strTruthy (sec1.getD emptyPdfSecurity).ownerPassword) := hreq.symm
  unfold generatePdf
  cases hsec1 : (strTruthy (sec1.getD emptyPdfSecurity).password ||
      strTruthy (sec1.getD emptyPdfSecurity).ownerPassword) <;>
    rw [hsec1] at hsec2 <;>
    cases hw : natTruthy (opts.getD emptyPdfOptions).waitTime <;>
    simp [hurl, hpage, hnav, hok, hstop, hpdf, hskip, hup1, hup2, hw,
      hsec1, hsec2, happ, isJsonUploadEv]

/-- Witness for C3 at two concrete requests differing only in the password
value. -/
theorem generatePdf_password_noninterference_witness :
    isValidUrl ((some "https://example.com").getD "https://example.com") = true ∧
    sampleOracle.newPage = .ok () ∧
    sampleOracle.gotoResult = .ok (some sampleNav) ∧ sampleNav.ok = true ∧
    ((decide (0 < sampleOracle.pageErrors.length) &&
      boolTruthy ((none : Option PdfOptions).getD emptyPdfOptions).failOnErrors) =
      false) ∧
    sampleOracle.pdfResult = .ok [37, 80, 68, 70] ∧
    (sampleCfg.skipS3Env == some "true") = false ∧
    sampleOracle.uploadPdf = .ok () ∧ sampleOracle.uploadProgress = .ok () ∧
    ((strTruthy ((some { password := some "hunter2", ownerPassword := none } :
        Option PdfSecurity).getD emptyPdfSecurity).password ||
      strTruthy ((some { password := some "hunter2", ownerPassword := none } :
        Option PdfSecurity).getD emptyPdfSecurity).ownerPassword) =
     (strTruthy ((some { password := some "swordfish", ownerPassword := none } :
        Option PdfSecurity).getD emptyPdfSecurity).password ||
      strTruthy ((some { password := some "swordfish", ownerPassword := none } :
        Option PdfSecurity).getD emptyPdfSecurity).ownerPassword)) ∧
    (generatePdf sampleCfg sampleOracle
        { url := some "https://example.com", data := none, options := none,
          s3 := none,
          security := some { password := some "hunter2", ownerPassword := none } }).2.filter
        isJsonUploadEv =
    (generatePdf sampleCfg sampleOracle
        { url := some "https://example.com", data := none, options := none,
          s3 := none,
          security := some { password := some "swordfish", ownerPassword := none } }).2.filter
        isJsonUploadEv :=
  ⟨by decide, rfl, rfl, rfl, by decide, rfl, rfl, rfl, rfl, by decide,
    generatePdf_password_noninterference sampleCfg sampleOracle
      (some "https://example.com") none none none
      (some { password := some "hunter2", ownerPassword := none })
      (some { password := some "swordfish", ownerPassword := none })
      sampleNav [37, 80, 68, 70]
      (by decide) rfl rfl rfl (by decide) rfl rfl rfl rfl (by decide) rfl⟩

/-- No branch of `generatePdf` ever emits a `page.close()` or a
`browser.close()` call: the pipeline body contains no cleanup action. -/
theorem generatePdf_no_close_events (cfg : EnvConfig) (o : GenOracle)
    (req : RequestData) :
    ((generatePdf cfg o req).2.countP isClosePageEv = 0) ∧
    ((generatePdf cfg o req).2.countP isCloseBrowserEv = 0) := by
  refine ⟨?_, ?_⟩ <;>
  · simp only [generatePdf]
    repeat' split
    all_goals
      simp [isClosePageEv, isCloseBrowserEv, List.countP_cons, List.countP_append]

/-- C1 counterexample: on the all-success terminal run of the pipeline,
`page.close()` is not invoked exactly once — it is never invoked at all. -/
theorem generatePdf_page_close_missing_counterexample :
    ((generatePdf sampleCfg sampleOracle sampleRequest).2.countP isClosePageEv ≠ 1) ∧
    (∃ res, (generatePdf sampleCfg sampleOracle sampleRequest).1 = Except.ok res ∧
      res.response.statusCode = 200) := by
  constructor
  · decide
  · exact ⟨_, rfl, rfl⟩

/-- C1 as amended: `generatePdf` never closes the page on any path;
resource release is the handler's finally block, which closes the browser
exactly once whenever the launch succeeded, whether `generatePdf` returned
or threw. -/
theorem handler_releases_browser_never_page (cfg : EnvConfig)
    (ho : HandlerOracle) (event : LambdaEvent)
    (hauth : (authenticate event.headers cfg.apiKey).valid = true)
    (hmethod : (strOrOpt event.httpMethod event.rcHttpMethod == some "POST") = true)
    (hparse : (parseRequestBody ho.parsed event.body
      (event.isBase64Encoded.getD false)).success = true)
    (hlaunch : ho.launch = .ok ()) :
    ((handler cfg ho event).2.countP isCloseBrowserEv = 1) ∧
    ((handler cfg ho event).2.countP isClosePageEv = 0) ∧
    (∀ cfg2 o2 req2, (generatePdf cfg2 o2 req2).2.countP isClosePageEv = 0) := by
  obtain ⟨hcp, hcb⟩ := generatePdf_no_close_events cfg ho.gen
    ((parseRequestBody ho.parsed event.body
      (event.isBase64Encoded.getD false)).data.getD emptyRequestData)
  refine ⟨?_, ?_, fun cfg2 o2 req2 => (generatePdf_no_close_events cfg2 o2 req2).1⟩ <;>
  · unfold handler
    rcases hg : generatePdf cfg ho.gen
      ((parseRequestBody ho.parsed event.body
        (event.isBase64Encoded.getD false)).data.getD emptyRequestData) with ⟨res, tr⟩
    rw [hg] at hcp hcb
    cases res <;>
      simp [hauth, hmethod, hparse, hlaunch, hg, List.countP_append,
        List.countP_cons, isCloseBrowserEv, isClosePageEv, hcp, hcb]

/-- A POST event carrying the valid API key and an empty body. -/
def sampleEvent : LambdaEvent :=
  { httpMethod := some "POST", rcHttpMethod := none
    headers := some [("x-api-key", "k")], body := none, isBase64Encoded := none }

/-- Handler capabilities for the sample run: parse succeeds, launch
succeeds, pipeline capabilities as in `sampleOracle`. -/
def sampleHandlerOracle : HandlerOracle :=
  { parsed := .ok emptyRequestData, launch := .ok (), gen := sampleOracle }

/-- Witness for the amended C1 at the sample handler run. -/
theorem handler_releases_browser_never_page_witness :
    (authenticate sampleEvent.headers sampleCfg.apiKey).valid = true ∧
    (strOrOpt sampleEvent.httpMethod sampleEvent.rcHttpMethod == some "POST") = true ∧
    (parseRequestBody sampleHandlerOracle.parsed sampleEvent.body
      (sampleEvent.isBase64Encoded.getD false)).success = true ∧
    sampleHandlerOracle.launch = .ok () ∧
    (((handler sampleCfg sampleHandlerOracle sampleEvent).2.countP isCloseBrowserEv = 1) ∧
     ((handler sampleCfg sampleHandlerOracle sampleEvent).2.countP isClosePageEv = 0) ∧
     (∀ cfg2 o2 req2, (generatePdf cfg2 o2 req2).2.countP isClosePageEv = 0)) :=
  ⟨by decide, by decide, by decide, rfl,
    handler_releases_browser_never_page sampleCfg sampleHandlerOracle sampleEvent
      (by decide) (by decide) (by decide) rfl⟩

end PuppeteerLambda
